import Mathlib

/-!
Shallow embedding of `src/backend/server.py` (Emergency Response API).

Conventions of the embedding:
* the MongoDB collections `emergency_instructions` and `help_requests` are
  modelled as `List EmergencyInstruction` / `List HelpRequest`, passed and
  returned explicitly by each operation;
* `datetime.utcnow()` timestamps are modelled as `Nat` values supplied by the
  caller (one logical clock reading per operation);
* `uuid.uuid4()` identifier generation is modelled as a caller-supplied fresh
  identifier (`String`, or `Nat → String` for the bootstrap batch);
* Python `Optional[float]` coordinates are modelled as `Option Rat`: the code
  only stores and returns them, it never computes with them;
* `HTTPException(status_code, detail)` and FastAPI request-validation failure
  (HTTP 422 raised before a handler runs) form the error type `ApiError`;
* Mongo `find(...).to_list(1000)` is `List.filter` followed by `List.take 1000`.
-/

inductive EmergencyType
  | choking
  | bleeding
  | allergic_reaction
deriving DecidableEq, BEq, Repr

/-- The string value of each member of the `EmergencyType` enum
(`str, Enum` in the source). -/
def EmergencyType.value : EmergencyType → String
  | .choking => "choking"
  | .bleeding => "bleeding"
  | .allergic_reaction => "allergic_reaction"

/-- FastAPI coercion of a raw path token into the `EmergencyType` enum:
`none` models the request-validation rejection that happens before the
handler body runs. -/
def EmergencyType.ofString (s : String) : Option EmergencyType :=
  if s = "choking" then some .choking
  else if s = "bleeding" then some .bleeding
  else if s = "allergic_reaction" then some .allergic_reaction
  else none

inductive HelpRequestStatus
  | active
  | responded
  | resolved
deriving DecidableEq, BEq, Repr

inductive SeverityLevel
  | minor
  | moderate
  | severe
  | critical
deriving DecidableEq, BEq, Repr

structure EmergencyInstruction where
  id : String
  type : EmergencyType
  title : String
  description : String
  steps : List String
  voice_instructions : List String
  severity : SeverityLevel
  duration_estimate : String
  when_to_call_911 : String
  created_at : Nat
deriving DecidableEq, Repr

structure HelpRequest where
  id : String
  emergency_type : EmergencyType
  location_description : String
  latitude : Option Rat
  longitude : Option Rat
  contact_phone : Option String
  additional_info : Option String
  status : HelpRequestStatus
  created_at : Nat
  updated_at : Nat
deriving DecidableEq, Repr

/-- Request body of `POST /help-requests` (`HelpRequestCreate` model). -/
structure HelpRequestCreate where
  emergency_type : EmergencyType
  location_description : String
  latitude : Option Rat
  longitude : Option Rat
  contact_phone : Option String
  additional_info : Option String
deriving DecidableEq, Repr

/-- Request body of `PUT /help-requests/{request_id}` (`HelpRequestUpdate` model). -/
structure HelpRequestUpdate where
  status : HelpRequestStatus
deriving DecidableEq, Repr

/-- Error outcomes visible at the API boundary: an explicit
`HTTPException(status_code, detail)` raised by a handler, or the 422
request-validation failure FastAPI produces before the handler is reached. -/
inductive ApiError
  | httpException (status_code : Nat) (detail : String)
  | requestValidationError
deriving DecidableEq, Repr

/-- The fixed reference list built inside `initialize_emergency_data`
(the local `instructions` list of the source). `newId n` stands for the
`uuid.uuid4()` drawn for the `n`-th record and `now` for its
`datetime.utcnow()` default. -/
def instructions (newId : Nat → String) (now : Nat) : List EmergencyInstruction :=
  [ -- Choking Instructions
    { id := newId 0
      type := EmergencyType.choking
      title := "Adult Choking (Conscious)"
      description := "For conscious adults who cannot cough, speak, or breathe"
      severity := SeverityLevel.critical
      duration_estimate := "1-2 minutes"
      when_to_call_911 := "If person becomes unconscious or obstruction doesn\x27t clear"
      steps :=
        [ "Stand behind the person",
          "Place arms around their waist",
          "Make a fist with one hand, place thumb side against abdomen above navel",
          "Grasp fist with other hand, press hard into abdomen with quick upward thrust",
          "Repeat until object is expelled or person becomes unconscious" ]
      voice_instructions :=
        [ "Stand behind the choking person",
          "Wrap your arms around their waist",
          "Make a fist and place it above their belly button",
          "Grab your fist with your other hand",
          "Push hard and quick upward into their abdomen",
          "Keep doing this until the object comes out" ]
      created_at := now },
    { id := newId 1
      type := EmergencyType.choking
      title := "Child Choking (1-8 years)"
      description := "For conscious children who cannot cough, speak, or breathe"
      severity := SeverityLevel.critical
      duration_estimate := "1-2 minutes"
      when_to_call_911 := "Immediately, even if obstruction clears"
      steps :=
        [ "Kneel behind child or stand if child is small",
          "Place arms around child\x27s waist",
          "Make fist, place thumb side against abdomen above navel, below breastbone",
          "Press hard into abdomen with quick upward thrusts",
          "Be gentler than with adults",
          "Continue until object is expelled" ]
      voice_instructions :=
        [ "Get behind the child at their level",
          "Put your arms around their waist",
          "Make a fist above their belly button, below the chest",
          "Push gently but firmly upward",
          "Keep doing this until the object comes out",
          "Call nine one one immediately" ]
      created_at := now },
    -- Bleeding Instructions
    { id := newId 2
      type := EmergencyType.bleeding
      title := "Severe Bleeding Control"
      description := "For heavy bleeding from cuts or wounds"
      severity := SeverityLevel.severe
      duration_estimate := "Until medical help arrives"
      when_to_call_911 := "For any severe bleeding that won\x27t stop"
      steps :=
        [ "Apply direct pressure with clean cloth or bandage",
          "Press firmly on the wound",
          "If blood soaks through, add more layers without removing original",
          "Raise injured area above heart level if possible",
          "Continue pressure until bleeding stops or help arrives" ]
      voice_instructions :=
        [ "Put a clean cloth directly on the wound",
          "Press down firmly with your hands",
          "If blood soaks through, add more cloth on top",
          "Keep pressing without stopping",
          "Lift the injured part higher than the heart if you can",
          "Don\x27t stop pressing until help arrives" ]
      created_at := now },
    { id := newId 3
      type := EmergencyType.bleeding
      title := "Minor Cut Treatment"
      description := "For small cuts and scrapes"
      severity := SeverityLevel.minor
      duration_estimate := "5-10 minutes"
      when_to_call_911 := "If bleeding won\x27t stop after 10 minutes of pressure"
      steps :=
        [ "Clean hands before treating wound",
          "Apply gentle pressure with clean cloth",
          "Clean wound gently with water",
          "Apply antibiotic ointment if available",
          "Cover with sterile bandage",
          "Change bandage daily and keep wound clean" ]
      voice_instructions :=
        [ "First, wash your hands",
          "Put gentle pressure on the cut with a clean cloth",
          "When bleeding stops, clean the cut with water",
          "Put on antibiotic cream if you have it",
          "Cover with a clean bandage",
          "Change the bandage every day" ]
      created_at := now },
    -- Allergic Reaction Instructions
    { id := newId 4
      type := EmergencyType.allergic_reaction
      title := "Severe Allergic Reaction (Anaphylaxis)"
      description := "Life-threatening allergic reaction with breathing problems"
      severity := SeverityLevel.critical
      duration_estimate := "Immediate action required"
      when_to_call_911 := "Immediately for severe allergic reactions"
      steps :=
        [ "Call 911 immediately",
          "Use epinephrine auto-injector (EpiPen) if available",
          "Help person lie down with legs elevated",
          "Remove or avoid allergen if known",
          "Monitor breathing and pulse",
          "Be prepared to perform CPR if needed" ]
      voice_instructions :=
        [ "Call nine one one right now",
          "If there\x27s an EpiPen, use it on the outer thigh",
          "Help the person lie down",
          "Lift their legs up",
          "Stay with them and watch their breathing",
          "Be ready to do CPR if they stop breathing" ]
      created_at := now },
    { id := newId 5
      type := EmergencyType.allergic_reaction
      title := "Mild Allergic Reaction"
      description := "Minor allergic reactions with skin or mild symptoms"
      severity := SeverityLevel.minor
      duration_estimate := "Monitor for 30 minutes"
      when_to_call_911 := "If symptoms worsen or breathing becomes difficult"
      steps :=
        [ "Remove or avoid the allergen",
          "Give antihistamine if available (Benadryl)",
          "Apply cool compress to affected skin",
          "Monitor for worsening symptoms",
          "Seek medical attention if symptoms persist or worsen" ]
      voice_instructions :=
        [ "Stay away from whatever caused the reaction",
          "Take an antihistamine like Benadryl if you have it",
          "Put a cool cloth on itchy skin",
          "Watch carefully for any worsening",
          "Get medical help if it gets worse" ]
      created_at := now } ]

/-- `initialize_emergency_data`: if the catalog already holds one or more
records it returns unchanged, otherwise the fixed reference list is inserted
record by record (appended to the catalog). -/
def initialize_emergency_data (newId : Nat → String) (now : Nat)
    (catalog : List EmergencyInstruction) : List EmergencyInstruction :=
  if 0 < catalog.length then catalog
  else catalog ++ instructions newId now

/-- `GET /emergency-instructions` (`get_all_instructions`):
`db.emergency_instructions.find().to_list(1000)`. -/
def get_all_instructions (catalog : List EmergencyInstruction) :
    List EmergencyInstruction :=
  catalog.take 1000

/-- `GET /emergency-instructions/{emergency_type}` (`get_instructions_by_type`),
for a path token that passed enum validation:
`find({"type": emergency_type}).to_list(1000)`, then 404 when the result is
empty. -/
def get_instructions_by_type (emergency_type : EmergencyType)
    (catalog : List EmergencyInstruction) :
    Except ApiError (List EmergencyInstruction) :=
  let found := (catalog.filter (fun i => i.type == emergency_type)).take 1000
  if found.isEmpty then
    Except.error (ApiError.httpException 404 "No instructions found")
  else
    Except.ok found

/-- The same route on the raw path token: FastAPI first coerces the token into
the `EmergencyType` enum and answers 422 without touching the store when the
token is not a member. -/
def get_instructions_by_type_route (emergency_type_token : String)
    (catalog : List EmergencyInstruction) :
    Except ApiError (List EmergencyInstruction) :=
  match EmergencyType.ofString emergency_type_token with
  | none => Except.error ApiError.requestValidationError
  | some t => get_instructions_by_type t catalog

/-- `POST /help-requests` (`create_help_request`): builds the `HelpRequest`
model from the input (defaults: fresh id, `active` status, `created_at` and
`updated_at` from `utcnow`) and inserts the single document. Returns the
created record with the new store. -/
def create_help_request (help_request : HelpRequestCreate) (newId : String)
    (now : Nat) (store : List HelpRequest) : HelpRequest × List HelpRequest :=
  let help_obj : HelpRequest :=
    { id := newId
      emergency_type := help_request.emergency_type
      location_description := help_request.location_description
      latitude := help_request.latitude
      longitude := help_request.longitude
      contact_phone := help_request.contact_phone
      additional_info := help_request.additional_info
      status := HelpRequestStatus.active
      created_at := now
      updated_at := now }
  (help_obj, store ++ [help_obj])

/-- Mongo `find_one_and_update({"id": request_id}, {"$set": {status, updated_at}},
return_document=True)`: atomically mutates the first document whose `id`
matches, returning the post-update document, or `none` (store untouched) when
no document matches. -/
def find_one_and_update (request_id : String) (newStatus : HelpRequestStatus)
    (now : Nat) : List HelpRequest → Option HelpRequest × List HelpRequest
  | [] => (none, [])
  | r :: rs =>
    if r.id == request_id then
      let r2 := { r with status := newStatus, updated_at := now }
      (some r2, r2 :: rs)
    else
      let p := find_one_and_update request_id newStatus now rs
      (p.1, r :: p.2)

/-- `PUT /help-requests/{request_id}` (`update_help_request`): sets
`updated_at` to the current time alongside the requested status in one
find-and-update; 404 when no document matched. -/
def update_help_request (request_id : String) (update_data : HelpRequestUpdate)
    (now : Nat) (store : List HelpRequest) :
    Except ApiError HelpRequest × List HelpRequest :=
  let p := find_one_and_update request_id update_data.status now store
  match p.1 with
  | none => (Except.error (ApiError.httpException 404 "Help request not found"), p.2)
  | some result => (Except.ok result, p.2)

/-- `GET /help-requests/{request_id}` (`get_help_request`):
`find_one({"id": request_id})`, 404 when absent. -/
def get_help_request (request_id : String) (store : List HelpRequest) :
    Except ApiError HelpRequest :=
  match store.find? (fun r => r.id == request_id) with
  | none => Except.error (ApiError.httpException 404 "Help request not found")
  | some r => Except.ok r

/-- `GET /help-requests` (`get_help_requests`): all documents with
`status == "active"`, capped by `to_list(1000)`. -/
def get_help_requests (store : List HelpRequest) : List HelpRequest :=
  (store.filter (fun r => r.status == HelpRequestStatus.active)).take 1000

/-! ### Helper lemmas about `find_one_and_update` -/

/-- When some record of the store has the requested id, `find_one_and_update`
returns an updated record carrying the requested status and timestamp. -/
theorem find_one_and_update_mem (newStatus : HelpRequestStatus) (now : Nat)
    (store : List HelpRequest) (r : HelpRequest) (hmem : r ∈ store) :
    ∃ r2, (find_one_and_update r.id newStatus now store).1 = some r2 ∧
      r2.status = newStatus ∧ r2.updated_at = now := by
  induction store with
  | nil => cases hmem
  | cons x xs ih =>
    by_cases h : (x.id == r.id) = true
    · exact ⟨{ x with status := newStatus, updated_at := now },
        by simp [find_one_and_update, h], rfl, rfl⟩
    · have hxs : r ∈ xs := by
        rcases List.mem_cons.mp hmem with hrx | hx
        · subst hrx; simp at h
        · exact hx
      obtain ⟨r2, h1, h2, h3⟩ := ih hxs
      exact ⟨r2, by simp [find_one_and_update, h, h1], h2, h3⟩

/-- `find_one_and_update` mutates exactly the first record matched by
`find?` with the given id, in place, leaving the rest of the store as it was. -/
theorem find_one_and_update_split (request_id : String)
    (newStatus : HelpRequestStatus) (now : Nat) (store : List HelpRequest)
    (r : HelpRequest)
    (hfind : store.find? (fun x => x.id == request_id) = some r) :
    ∃ l1 l2, store = l1 ++ r :: l2 ∧
      find_one_and_update request_id newStatus now store =
        (some { r with status := newStatus, updated_at := now },
         l1 ++ { r with status := newStatus, updated_at := now } :: l2) := by
  induction store with
  | nil => simp [List.find?] at hfind
  | cons x xs ih =>
    cases hx : (x.id == request_id) with
    | true =>
      simp only [List.find?_cons, hx] at hfind
      injection hfind with hfind
      subst hfind
      exact ⟨[], xs, rfl, by simp [find_one_and_update, hx]⟩
    | false =>
      simp only [List.find?_cons, hx] at hfind
      obtain ⟨l1, l2, hst, hupd⟩ := ih hfind
      exact ⟨x :: l1, l2, by rw [hst]; rfl,
        by simp [find_one_and_update, hx, hupd]⟩

/-- When no record of the store has the requested id, `find_one_and_update`
reports no match and returns the store unchanged. -/
theorem find_one_and_update_none (request_id : String)
    (newStatus : HelpRequestStatus) (now : Nat) (store : List HelpRequest)
    (hfind : store.find? (fun x => x.id == request_id) = none) :
    find_one_and_update request_id newStatus now store = (none, store) := by
  induction store with
  | nil => rfl
  | cons x xs ih =>
    cases hx : (x.id == request_id) with
    | true =>
      rw [List.find?_cons, hx] at hfind
      exact absurd hfind (by simp)
    | false =>
      simp only [List.find?_cons, hx] at hfind
      simp [find_one_and_update, hx, ih hfind]

/-! ### Concrete sample data used by witnesses and counterexamples -/

/-- A minimal, fully blank instruction distinguished only by its
`created_at` field; used to build catalogs of arbitrary size. -/
def paddingInstruction (n : Nat) : EmergencyInstruction :=
  { id := "", type := EmergencyType.choking, title := "", description := "",
    steps := [], voice_instructions := [], severity := SeverityLevel.minor,
    duration_estimate := "", when_to_call_911 := "", created_at := n }

/-- A catalog of 1001 pairwise distinct instructions. -/
def bigCatalog : List EmergencyInstruction :=
  (List.range 1001).map paddingInstruction

/-- A concrete creation input, as in the spec round-trip example. -/
def sampleCreate : HelpRequestCreate :=
  { emergency_type := EmergencyType.choking
    location_description := "123 Test St"
    latitude := none
    longitude := none
    contact_phone := none
    additional_info := none }

/-- A concrete stored help request, already in the terminal `resolved`
status, created at logical time 5. -/
def sampleRequest : HelpRequest :=
  { id := "req-1"
    emergency_type := EmergencyType.choking
    location_description := "123 Test St"
    latitude := none
    longitude := none
    contact_phone := none
    additional_info := none
    status := HelpRequestStatus.resolved
    created_at := 5
    updated_at := 5 }

/-! ### Claim C1 -/

/-- Claim C1, counterexample: the claim that every instruction inserted by
the bootstrap has `steps` and `voice_instructions` of the same length is
false — the seeded catalog contains an instruction (Adult Choking, 5 steps
against 6 voice lines) whose two sequences differ in length. -/
theorem steps_voice_parity_fails_on_seed :
    ∃ i ∈ initialize_emergency_data (fun _ => "") 0 [],
      i.steps.length ≠ i.voice_instructions.length := by decide

/-- Claim C1, amended: for every instruction inserted by the bootstrap,
`voice_instructions` is at least as long as `steps`, and exactly four of the
six seeded instructions have the two sequences of equal length (the parity
fails for Adult Choking and Severe Bleeding Control, each 5 steps against 6
voice lines). -/
theorem seed_voice_ge_steps (newId : Nat → String) (now : Nat) :
    ((initialize_emergency_data newId now []).all
      (fun i => i.steps.length ≤ i.voice_instructions.length)) = true ∧
    ((initialize_emergency_data newId now []).countP
      (fun i => i.steps.length == i.voice_instructions.length)) = 4 :=
  ⟨rfl, rfl⟩

/-! ### Claim C2 -/

/-- Claim C2, counterexample: the seeded reference set does not span the
full severity range — no seeded instruction has severity `moderate`. -/
theorem severity_range_not_spanned :
    ¬ ∃ i ∈ initialize_emergency_data (fun _ => "") 0 [],
      i.severity = SeverityLevel.moderate := by decide

/-- Claim C2, amended: the fixed reference set inserted by the bootstrap on
an empty catalog covers all three emergency categories and the severities
`minor`, `severe` and `critical`, but no seeded instruction has severity
`moderate`. -/
theorem seed_categories_and_severities (newId : Nat → String) (now : Nat) :
    ((initialize_emergency_data newId now []).any
        (fun i => i.type == EmergencyType.choking)) = true ∧
    ((initialize_emergency_data newId now []).any
        (fun i => i.type == EmergencyType.bleeding)) = true ∧
    ((initialize_emergency_data newId now []).any
        (fun i => i.type == EmergencyType.allergic_reaction)) = true ∧
    ((initialize_emergency_data newId now []).any
        (fun i => i.severity == SeverityLevel.minor)) = true ∧
    ((initialize_emergency_data newId now []).any
        (fun i => i.severity == SeverityLevel.severe)) = true ∧
    ((initialize_emergency_data newId now []).any
        (fun i => i.severity == SeverityLevel.critical)) = true ∧
    ((initialize_emergency_data newId now []).any
        (fun i => i.severity == SeverityLevel.moderate)) = false :=
  ⟨rfl, rfl, rfl, rfl, rfl, rfl, rfl⟩

/-! ### Claim C3 -/

/-- Claim C3: for every valid creation input, `create_help_request` assigns
the freshly generated id, sets status `active`, sets `created_at` and
`updated_at` both to the creation time (hence equal), copies every input
field into the record, persists exactly one record (the store is the old
store plus that single record), and returns the full record. -/
theorem create_help_request_spec (input : HelpRequestCreate) (newId : String)
    (now : Nat) (store : List HelpRequest)
    (_hloc : input.location_description ≠ "")
    (hfresh : ∀ r0 ∈ store, r0.id ≠ newId) :
    let p := create_help_request input newId now store
    p.1.id = newId ∧
    p.1.status = HelpRequestStatus.active ∧
    p.1.created_at = now ∧ p.1.updated_at = now ∧
    p.1.created_at = p.1.updated_at ∧
    p.1.emergency_type = input.emergency_type ∧
    p.1.location_description = input.location_description ∧
    p.1.latitude = input.latitude ∧ p.1.longitude = input.longitude ∧
    p.1.contact_phone = input.contact_phone ∧
    p.1.additional_info = input.additional_info ∧
    p.2 = store ++ [p.1] ∧
    (∀ r0 ∈ store, r0.id ≠ p.1.id) :=
  ⟨rfl, rfl, rfl, rfl, rfl, rfl, rfl, rfl, rfl, rfl, rfl, rfl, hfresh⟩

/-- Claim C3, witness: the spec round-trip example, on an empty store at
logical time 5 with fresh id `id-1`. -/
theorem create_help_request_spec_witness :
    let p := create_help_request sampleCreate "id-1" 5 []
    p.1.id = "id-1" ∧
    p.1.status = HelpRequestStatus.active ∧
    p.1.created_at = 5 ∧ p.1.updated_at = 5 ∧
    p.1.created_at = p.1.updated_at ∧
    p.1.emergency_type = sampleCreate.emergency_type ∧
    p.1.location_description = sampleCreate.location_description ∧
    p.1.latitude = sampleCreate.latitude ∧ p.1.longitude = sampleCreate.longitude ∧
    p.1.contact_phone = sampleCreate.contact_phone ∧
    p.1.additional_info = sampleCreate.additional_info ∧
    p.2 = [] ++ [p.1] ∧
    (∀ r0 ∈ ([] : List HelpRequest), r0.id ≠ p.1.id) :=
  create_help_request_spec sampleCreate "id-1" 5 [] (by decide) (by decide)

/-! ### Claim C4 -/

set_option maxRecDepth 8000 in
/-- Claim C4, counterexample: `get_all_instructions` does not return every
stored instruction regardless of catalog size — on a catalog of 1001
distinct instructions, the last one is stored but absent from the result
(the handler caps the read at `to_list(1000)`). -/
theorem get_all_instructions_omits_beyond_1000 :
    paddingInstruction 1000 ∈ bigCatalog ∧
    paddingInstruction 1000 ∉ get_all_instructions bigCatalog := by decide

/-- Claim C4, amended: `get_all_instructions` returns the first
`min(size, 1000)` stored instructions, so it returns every stored
instruction exactly when the catalog holds at most 1000 of them. -/
theorem get_all_instructions_complete_le_1000
    (catalog : List EmergencyInstruction) (h : catalog.length ≤ 1000) :
    get_all_instructions catalog = catalog ∧
    ∀ i ∈ catalog, i ∈ get_all_instructions catalog := by
  have ht : catalog.take 1000 = catalog := List.take_of_length_le h
  constructor
  · simpa [get_all_instructions] using ht
  · intro i hi
    simpa [get_all_instructions, ht] using hi

/-- Claim C4, witness: on the six-record seeded catalog, every stored
instruction is returned. -/
theorem get_all_instructions_complete_le_1000_witness :
    get_all_instructions (initialize_emergency_data (fun _ => "") 0 []) =
      initialize_emergency_data (fun _ => "") 0 [] ∧
    ∀ i ∈ initialize_emergency_data (fun _ => "") 0 [],
      i ∈ get_all_instructions (initialize_emergency_data (fun _ => "") 0 []) :=
  get_all_instructions_complete_le_1000
    (initialize_emergency_data (fun _ => "") 0 []) (by decide)

/-! ### Claim C5 -/

/-- Claim C5: for every help request present in the store, in any status,
and every target status of the enumeration, `update_help_request` succeeds —
no transition-order validation is performed, backward transitions included. -/
theorem update_any_transition_succeeds (store : List HelpRequest)
    (r : HelpRequest) (hmem : r ∈ store) (newStatus : HelpRequestStatus)
    (now : Nat) :
    ∃ r2, (update_help_request r.id ⟨newStatus⟩ now store).1 = Except.ok r2 ∧
      r2.status = newStatus := by
  obtain ⟨r2, h1, h2, _⟩ := find_one_and_update_mem newStatus now store r hmem
  refine ⟨r2, ?_, h2⟩
  simp only [update_help_request, h1]

/-- Claim C5, witness: the backward transition `resolved → active` succeeds
on a stored record that is already resolved. -/
theorem update_any_transition_succeeds_witness :
    ∃ r2, (update_help_request sampleRequest.id ⟨HelpRequestStatus.active⟩ 9
        [sampleRequest]).1 = Except.ok r2 ∧
      r2.status = HelpRequestStatus.active :=
  update_any_transition_succeeds [sampleRequest] sampleRequest (by decide)
    HelpRequestStatus.active 9

/-! ### Claim C6 -/

/-- Claim C6: for an existing help request (the record matched by id),
`update_help_request` performs a single in-place find-and-mutate: the store
keeps its shape with only the matched record replaced, the returned record
carries the new status and `updated_at = now`, every other field — id,
emergency type, location, coordinates, contacts, and in particular
`created_at` — is unchanged, and, the clock having advanced past the
creation instant, its `updated_at` is strictly greater than the original
`created_at`. -/
theorem update_atomic_find_and_mutate (store : List HelpRequest)
    (request_id : String) (r : HelpRequest) (newStatus : HelpRequestStatus)
    (now : Nat)
    (hfind : store.find? (fun x => x.id == request_id) = some r)
    (hclk : r.created_at < now) :
    ∃ r2 l1 l2,
      store = l1 ++ r :: l2 ∧
      update_help_request request_id ⟨newStatus⟩ now store =
        (Except.ok r2, l1 ++ r2 :: l2) ∧
      r2.status = newStatus ∧ r2.updated_at = now ∧
      r2.id = r.id ∧ r2.emergency_type = r.emergency_type ∧
      r2.location_description = r.location_description ∧
      r2.latitude = r.latitude ∧ r2.longitude = r.longitude ∧
      r2.contact_phone = r.contact_phone ∧
      r2.additional_info = r.additional_info ∧
      r2.created_at = r.created_at ∧
      r.created_at < r2.updated_at := by
  obtain ⟨l1, l2, hst, hupd⟩ :=
    find_one_and_update_split request_id newStatus now store r hfind
  exact ⟨{ r with status := newStatus, updated_at := now }, l1, l2, hst,
    by simp [update_help_request, hupd],
    rfl, rfl, rfl, rfl, rfl, rfl, rfl, rfl, rfl, rfl, hclk⟩

/-- Claim C6, witness: updating the sample record (created at time 5) to
`responded` at time 9. -/
theorem update_atomic_find_and_mutate_witness :
    ∃ r2 l1 l2,
      [sampleRequest] = l1 ++ sampleRequest :: l2 ∧
      update_help_request "req-1" ⟨HelpRequestStatus.responded⟩ 9 [sampleRequest] =
        (Except.ok r2, l1 ++ r2 :: l2) ∧
      r2.status = HelpRequestStatus.responded ∧ r2.updated_at = 9 ∧
      r2.id = sampleRequest.id ∧
      r2.emergency_type = sampleRequest.emergency_type ∧
      r2.location_description = sampleRequest.location_description ∧
      r2.latitude = sampleRequest.latitude ∧
      r2.longitude = sampleRequest.longitude ∧
      r2.contact_phone = sampleRequest.contact_phone ∧
      r2.additional_info = sampleRequest.additional_info ∧
      r2.created_at = sampleRequest.created_at ∧
      sampleRequest.created_at < r2.updated_at :=
  update_atomic_find_and_mutate [sampleRequest] "req-1" sampleRequest
    HelpRequestStatus.responded 9 (by decide) (by decide)

/-! ### Claim C7 -/

/-- Claim C7: the bootstrap is idempotent — on a catalog that already holds
one or more records it is a no-op, and running it twice in sequence (from
any starting catalog) leaves the record count of a single run unchanged. -/
theorem initialize_emergency_data_idempotent (newId newId2 : Nat → String)
    (now now2 : Nat) (catalog : List EmergencyInstruction) :
    (0 < catalog.length → initialize_emergency_data newId now catalog = catalog) ∧
    (initialize_emergency_data newId2 now2
        (initialize_emergency_data newId now catalog)).length
      = (initialize_emergency_data newId now catalog).length := by
  constructor
  · intro h
    simp [initialize_emergency_data, h]
  · cases catalog with
    | nil => rfl
    | cons x xs => simp [initialize_emergency_data]

/-- Claim C7, witness: on a one-record catalog the bootstrap is a no-op, and
a second run on the result of a first run (from the empty catalog) keeps
the count of the first run. -/
theorem initialize_emergency_data_idempotent_witness :
    initialize_emergency_data (fun _ => "") 0 [paddingInstruction 0] =
      [paddingInstruction 0] ∧
    (initialize_emergency_data (fun _ => "") 1
        (initialize_emergency_data (fun _ => "") 0 [])).length
      = (initialize_emergency_data (fun _ => "") 0 []).length :=
  ⟨(initialize_emergency_data_idempotent (fun _ => "") (fun _ => "") 0 1
      [paddingInstruction 0]).1 (by decide),
   (initialize_emergency_data_idempotent (fun _ => "") (fun _ => "") 0 1 []).2⟩

/-! ### Claim C8 -/

/-- Claim C8: after the bootstrap runs on an empty catalog, every value of
the closed `EmergencyType` enumeration has at least one instruction in the
catalog, and `get_instructions_by_type` succeeds with a non-empty result for
every such type. -/
theorem bootstrap_covers_all_types (newId : Nat → String) (now : Nat)
    (t : EmergencyType) :
    ((initialize_emergency_data newId now []).any (fun i => i.type == t)) = true ∧
    ∃ i l, get_instructions_by_type t (initialize_emergency_data newId now [])
      = Except.ok (i :: l) := by
  cases t <;> exact ⟨rfl, _, _, rfl⟩

/-! ### Claim C9 -/

/-- Claim C9: for a path token that names a member of the closed
enumeration, the instructions-by-type route fails with 404 NotFound exactly
when the sequence of instructions matching that type is empty; a token
outside the enumeration is rejected as a request-validation error
(InvalidArgument, 422) before the store is consulted — the outcome does not
depend on the catalog. -/
theorem instructions_by_type_notfound_iff_empty
    (catalog : List EmergencyInstruction) (token : String) :
    (∀ t, EmergencyType.ofString token = some t →
      (get_instructions_by_type_route token catalog =
          Except.error (ApiError.httpException 404 "No instructions found")
        ↔ catalog.filter (fun i => i.type == t) = [])) ∧
    (EmergencyType.ofString token = none →
      get_instructions_by_type_route token catalog =
        Except.error ApiError.requestValidationError) := by
  constructor
  · intro t ht
    simp only [get_instructions_by_type_route, ht]
    unfold get_instructions_by_type
    by_cases hf : (catalog.filter (fun i => i.type == t)) = []
    · simp [hf]
    · have hne : ((catalog.filter (fun i => i.type == t)).take 1000).isEmpty = false := by
        cases hc : catalog.filter (fun i => i.type == t) with
        | nil => exact absurd hc hf
        | cons a as => simp [hc]
      simp [hne, hf]
  · intro h
    simp [get_instructions_by_type_route, h]

/-- Claim C9, witness: on the empty catalog, the token `choking` (a member
of the enumeration with no matching instructions) yields 404, while the
token `invalid_type` is rejected by validation. -/
theorem instructions_by_type_notfound_iff_empty_witness :
    (get_instructions_by_type_route "choking" [] =
        Except.error (ApiError.httpException 404 "No instructions found")
      ↔ ([] : List EmergencyInstruction).filter
          (fun i => i.type == EmergencyType.choking) = []) ∧
    get_instructions_by_type_route "invalid_type" [] =
      Except.error ApiError.requestValidationError :=
  ⟨(instructions_by_type_notfound_iff_empty [] "choking").1
      EmergencyType.choking rfl,
   (instructions_by_type_notfound_iff_empty [] "invalid_type").2 rfl⟩

/-! ### Claim C10 -/

/-- Claim C10: when no stored help request matches the id, `get_help_request`
fails with 404 NotFound, and `update_help_request` fails with 404 NotFound
while leaving the store unchanged (in particular it creates no record);
when a record does match, `get_help_request` returns it verbatim. -/
theorem unknown_id_not_found (store : List HelpRequest) (request_id : String)
    (u : HelpRequestUpdate) (now : Nat) :
    (store.find? (fun x => x.id == request_id) = none →
      get_help_request request_id store =
        Except.error (ApiError.httpException 404 "Help request not found") ∧
      (update_help_request request_id u now store).1 =
        Except.error (ApiError.httpException 404 "Help request not found") ∧
      (update_help_request request_id u now store).2 = store) ∧
    (∀ r, store.find? (fun x => x.id == request_id) = some r →
      get_help_request request_id store = Except.ok r) := by
  constructor
  · intro h
    have h2 := find_one_and_update_none request_id u.status now store h
    refine ⟨?_, ?_, ?_⟩
    · simp [get_help_request, h]
    · simp [update_help_request, h2]
    · simp [update_help_request, h2]
  · intro r h
    simp [get_help_request, h]

/-- Claim C10, witness: on a one-record store, the id `nonexistent-id`
makes both the read and the update fail with 404 and leaves the store
unchanged, while the stored id is returned verbatim. -/
theorem unknown_id_not_found_witness :
    (get_help_request "nonexistent-id" [sampleRequest] =
        Except.error (ApiError.httpException 404 "Help request not found") ∧
      (update_help_request "nonexistent-id" ⟨HelpRequestStatus.resolved⟩ 9
          [sampleRequest]).1 =
        Except.error (ApiError.httpException 404 "Help request not found") ∧
      (update_help_request "nonexistent-id" ⟨HelpRequestStatus.resolved⟩ 9
          [sampleRequest]).2 = [sampleRequest]) ∧
    get_help_request "req-1" [sampleRequest] = Except.ok sampleRequest :=
  ⟨(unknown_id_not_found [sampleRequest] "nonexistent-id"
      ⟨HelpRequestStatus.resolved⟩ 9).1 (by decide),
   (unknown_id_not_found [sampleRequest] "req-1"
      ⟨HelpRequestStatus.resolved⟩ 9).2 sampleRequest (by decide)⟩
